import Mathlib

/-!
Verification development for the RAG-arxiv-query repository.

The definitions below are a shallow embedding of the repository's Python
code: the heuristic reward functions (`RAGLitAgent._calculate_reward` in
`rag_api/services/langchain/apo_litagent.py` and `rag_response_grader` in
`rag_api/services/langchain/apo_agent.py`), the bounded tool-calling agent
loops (`rag_agent_rollout` and `RAGLitAgent.training_rollout`), the tool
layer (`rag_query` and `arxiv_search` in
`rag_api/services/langchain/tools.py`), the Qdrant collection helper
(`ensure_collection` in `rag_api/ingestion/store.py`), the validation logic
of the `POST /query` route (`rag_api/services/langchain/routes.py`), and the
prompt-optimization loop of `train_apo.py`.

Modelling conventions:
- Python `str` is Lean `String`; the Python string operations used by the
  code (`in`, `count`, `lower`, `upper`, `isdigit`, `isalnum`, `set`,
  `strip` truthiness, slicing) are re-implemented below over `String.data`
  (`List Char`) with structural recursion so that every definition is
  executable and kernel-reducible.
- Python floats are modelled as `ℚ`.  Every constant in the scoring code is
  a small decimal and every claim proved here is about branch selection,
  clamping and comparisons, which are unaffected by the substitution.
- External effects (the OpenAI chat completion call, the Qdrant client, the
  arXiv HTTP fetch) are modelled as explicit inputs: an oracle giving the
  model response of each call in order, an explicit collection state, and a
  fetch-outcome datatype.
-/

set_option maxRecDepth 40000

namespace RagArxiv

/-! ## Python string operations over `List Char` -/

/-- Python `needle in hay` on `List Char`: `lpre` is a prefix of `l`. -/
def listIsPrefix : List Char → List Char → Bool
  | [], _ => true
  | _ :: _, [] => false
  | a :: as, b :: bs => a == b && listIsPrefix as bs

/-- Substring occurrence on `List Char` (Python `needle in hay`). -/
def listContainsSub (hay needle : List Char) : Bool :=
  match hay with
  | [] => needle.isEmpty
  | _ :: t => listIsPrefix needle hay || listContainsSub t needle

/-- Python `needle in hay` for strings. -/
def strContains (hay needle : String) : Bool :=
  listContainsSub hay.data needle.data

/-- Python `hay.startswith(pre)`; used to state the sentinel-prefix claims. -/
def strStartsWith (hay pre : String) : Bool :=
  listIsPrefix pre.data hay.data

/-- Non-overlapping substring count, Python `hay.count(needle)`, via fuel
bounded by the length of `hay` (the needle used by the source, `"123"`, is
never empty, so each match consumes at least one character). -/
def countSubAux : Nat → List Char → List Char → Nat
  | 0, _, _ => 0
  | fuel + 1, hay, needle =>
    match hay with
    | [] => 0
    | _ :: t =>
      if listIsPrefix needle hay then
        1 + countSubAux fuel (hay.drop needle.length) needle
      else
        countSubAux fuel t needle

/-- Python `hay.count(needle)` for a non-empty needle. -/
def strCount (hay needle : String) : Nat :=
  countSubAux (hay.data.length + 1) hay.data needle.data

/-- Python `s.lower()` (ASCII, which is all the source compares). -/
def pyLower (s : String) : String :=
  String.mk (s.data.map Char.toLower)

/-- Python `s.upper()` (ASCII, which is all the source compares). -/
def pyUpper (s : String) : String :=
  String.mk (s.data.map Char.toUpper)

/-- Python `s.isdigit()`: non-empty and all digits. -/
def pyIsDigit (s : String) : Bool :=
  !s.data.isEmpty && s.data.all Char.isDigit

/-- Python `len(set(s))`: the number of distinct characters of `s`. -/
def distinctCount (s : String) : Nat :=
  (s.data.foldl (fun acc c => if acc.contains c then acc else c :: acc) []).length

/-- Truthiness of Python `s.strip()`: `s` has a non-whitespace character. -/
def hasNonWs (s : String) : Bool :=
  s.data.any (fun c => !c.isWhitespace)

/-! ## Data model: tasks, transcript messages, tool calls

`Task` models the dict (or non-dict) task value threaded through
`training_rollout` and `_calculate_reward`: `isDict` is Python
`isinstance(task, dict)`, and each optional field models the presence of the
corresponding key.  `AToolCall` and `AMsg` model the message dicts that
`rag_agent_rollout` and `training_rollout` append to the conversation
(`role`, `content`, `tool_calls`, `tool_call_id`, `name`). -/

structure Task where
  isDict : Bool
  isInvalid : Bool
  intelligentChoice : Option String
  expectedOutputContains : Option (List String)
deriving DecidableEq, Repr

structure AToolCall where
  id : String
  typ : String
  name : String
  arguments : String
deriving DecidableEq, Repr

structure AMsg where
  role : String
  content : String
  toolCalls : Option (List AToolCall)
  toolCallId : String
  name : String
deriving DecidableEq, Repr

/-! ## The reward function `RAGLitAgent._calculate_reward`

Each block of the Python function is one definition below, composed in
source order by `calculateReward`. -/

/-- Python `max(a, b)` on rationals, kept executable by the kernel. -/
def qmax (a b : ℚ) : ℚ := if a ≤ b then b else a

/-- Python `min(a, b)` on rationals, kept executable by the kernel. -/
def qmin (a b : ℚ) : ℚ := if a ≤ b then a else b

/-- Clamp to `[0, 1]`: Python `min(max(score, 0.0), 1.0)`. -/
def clampQ (x : ℚ) : ℚ := qmin (qmax x 0) 1

/-- The fixed denylist of `_calculate_reward`'s gibberish heuristic. -/
def gibberishDenylist : List String :=
  ["asdfghjkl", "qwertyuiop", "123456789", "xyzabc123", "fghjklmnbvcxz"]

/-- The `gibberish_patterns` disjunction of `_calculate_reward` applied to
the lowercased query: very short, all digits, no alphanumeric characters,
denylist membership, low character diversity, the two magic substrings, and
a repeated `"123"` in a short query. -/
def isGibberish (query : String) : Bool :=
  let ql := pyLower query
  decide (ql.data.length < 3) ||
  pyIsDigit ql ||
  ql.data.all (fun c => !c.isAlphanum) ||
  gibberishDenylist.contains ql ||
  (decide (distinctCount ql < 3) && decide (ql.data.length > 5)) ||
  strContains ql "xyzabc123" ||
  strContains ql "nonexistent123456" ||
  (decide (strCount ql "123" > 1) && decide (ql.data.length < 20))

/-- The short-circuiting gibberish branch: reward `0.5` (plus `0.3` for an
explicit rejection phrase) when no tool was used, penalty `-0.5` otherwise.
`responseLower` is the lowercased response. -/
def gibberishBranchScore (responseLower : String) (usedRag usedArxiv : Bool) : ℚ :=
  if !usedRag && !usedArxiv then
    0.5 + (if strContains responseLower "invalid" ||
              strContains responseLower "valid query" then 0.3 else 0)
  else
    -0.5

/-- The `intelligent_choice` bonus/penalty block (`±0.15/±0.1/±0.05`). -/
def intelligentChoiceBonus (task : Task) (firstTool : Option String) : ℚ :=
  if task.isDict then
    match task.intelligentChoice with
    | some expected =>
      if expected = "arxiv_search_first" ∧ firstTool = some "arxiv_search" then 0.15
      else if expected = "rag_query_first" ∧ firstTool = some "rag_query" then 0.1
      else if expected = "arxiv_search_first" ∧ firstTool = some "rag_query" then -0.1
      else if expected = "rag_query_first" ∧ firstTool = some "arxiv_search" then -0.05
      else 0
    | none => 0
  else 0

/-- The keyword list behind `should_use_arxiv_first`. -/
def arxivFirstKeywords : List String :=
  ["recent", "latest", "new", "newest", "search arxiv", "2024", "2023", "published in"]

/-- The query-keyword bonus/penalty block of `_calculate_reward`. -/
def keywordBonus (queryLower : String) (firstTool : Option String) : ℚ :=
  let shouldUseArxivFirst := arxivFirstKeywords.any (fun k => strContains queryLower k)
  if shouldUseArxivFirst && (firstTool == some "arxiv_search") then 0.1
  else if shouldUseArxivFirst && (firstTool == some "rag_query") then -0.05
  else 0

/-- Output-format compliance: `0.2` for a `TOOL_LOG` marker together with an
answer, `0.1` for an answer alone (`"ANSWER:"` marker or length over 50). -/
def formatCredit (response : String) : ℚ :=
  let hasToolLog := strContains (pyUpper response) "TOOL_LOG"
  let hasAnswer := strContains (pyUpper response) "ANSWER:" ||
    decide (response.data.length > 50)
  if hasToolLog && hasAnswer then 0.2
  else if hasAnswer then 0.1
  else 0

/-- The error-indicator words of the completeness block. -/
def errorIndicators : List String :=
  ["error", "failed", "unable to", "cannot", "empty"]

/-- Response completeness: `0.3` for a long response free of error
indicators, `0.15` for a medium-length response. -/
def completenessCredit (response : String) : ℚ :=
  let hasErrors := errorIndicators.any (fun k => strContains (pyLower response) k)
  if !hasErrors && decide (response.data.length > 100) then 0.3
  else if decide (response.data.length > 50) then 0.15
  else 0

/-- Citation keywords of the quality block. -/
def citationKeywords : List String :=
  ["arxiv", "paper", "source", "reference", "http", "doi"]

/-- Hedging phrases of the quality block. -/
def hedgingPhrases : List String :=
  ["i don't know", "i cannot", "no information", "unable to find"]

/-- Response quality: `0.2` for citations with content, `0.1` for content
alone.  `responseLower` is the lowercased response. -/
def qualityCredit (responseLower : String) : ℚ :=
  let hasCitations := citationKeywords.any (fun k => strContains responseLower k)
  let hasContent := !(hedgingPhrases.any (fun k => strContains responseLower k))
  if hasCitations && hasContent then 0.2
  else if hasContent then 0.1
  else 0

/-- The `expected_output_contains` step of `_calculate_reward`: raises the
running score by a fraction of `0.1`, capped at `1.0`, when expected phrases
occur in the response.  The source normalizes a single string to a
one-element list; the model takes the list directly. -/
def applyExpectedBonus (task : Task) (responseLower : String) (score : ℚ) : ℚ :=
  if task.isDict then
    match task.expectedOutputContains with
    | some expected =>
      let found := (expected.filter (fun p => strContains responseLower (pyLower p))).length
      if found > 0 then
        qmin 1 (score + ((found : ℚ) / (expected.length : ℚ)) * 0.1)
      else score
    | none => score
  else score

/-- `RAGLitAgent._calculate_reward`, block for block.  The `messages`
argument is accepted, exactly as in the source, and never read. -/
def calculateReward (query response : String) (usedTools toolSequence : List String)
    (messages : List AMsg) (task : Task) : ℚ :=
  let _ := messages
  if response = "" then 0
  else
    let usedRag := usedTools.contains "rag_query"
    let usedArxiv := usedTools.contains "arxiv_search"
    let firstTool := toolSequence.head?
    let responseLower := pyLower response
    let detectedInvalid := isGibberish query || (task.isDict && task.isInvalid)
    if detectedInvalid then
      clampQ (gibberishBranchScore responseLower usedRag usedArxiv)
    else
      let score : ℚ := if usedRag || usedArxiv then 0.3 else 0
      let score := score + intelligentChoiceBonus task firstTool
      let score := score + keywordBonus (pyLower query) firstTool
      let score := score + formatCredit response
      let score := score + completenessCredit response
      let score := score + qualityCredit responseLower
      let score := applyExpectedBonus task responseLower score
      clampQ score

/-! ## The grader `rag_response_grader` of `apo_agent.py` -/

/-- The rollout result dict consumed by `rag_response_grader`: `messages`,
`response` and `task`. -/
structure RolloutResult where
  messages : List AMsg
  response : String
  task : Task
deriving DecidableEq, Repr

/-- The tool-usage extraction loop of `rag_response_grader`: the function
names of the `tool_calls` of every assistant message, in order.  A message
whose `tool_calls` value is absent or an empty list contributes nothing,
exactly as the source's truthiness check. -/
def assistantToolNames (messages : List AMsg) : List String :=
  messages.foldr
    (fun m acc =>
      if m.role = "assistant" then (m.toolCalls.getD []).map (fun tc => tc.name) ++ acc
      else acc)
    []

/-- The `expected_output_contains` step of `rag_response_grader`: unlike the
`_calculate_reward` variant it raises the quality sub-score, capped at
`0.2`. -/
def applyExpectedBonusGrader (task : Task) (responseLower : String) (q : ℚ) : ℚ :=
  match task.expectedOutputContains with
  | some expected =>
    let found := (expected.filter (fun p => strContains responseLower (pyLower p))).length
    if found > 0 then
      qmin 0.2 (q + ((found : ℚ) / (expected.length : ℚ)) * 0.1)
    else q
  | none => q

/-- `rag_response_grader`, block for block: tool usage (0.3), format (0.2),
completeness (0.3) and quality (0.2), summed and clamped to `[0, 1]`.
The source's both-tools branch re-assigns the same `0.3`, so the tool-usage
sub-score is `0.3` whenever either tool appears in an assistant message's
tool calls. -/
def ragResponseGrader (rr : RolloutResult) : ℚ :=
  if rr.response = "" then 0
  else
    let names := assistantToolNames rr.messages
    let usedRagQuery := names.contains "rag_query"
    let usedArxivSearch := names.contains "arxiv_search"
    let toolUsageScore : ℚ := if usedRagQuery || usedArxivSearch then 0.3 else 0
    let formatScore := formatCredit rr.response
    let completenessScore := completenessCredit rr.response
    let responseLower := pyLower rr.response
    let qualityScore := applyExpectedBonusGrader rr.task responseLower
      (qualityCredit responseLower)
    clampQ (toolUsageScore + formatScore + completenessScore + qualityScore)

/-! ## The agent loops

`rag_agent_rollout` (apo_agent.py) and the loop of
`RAGLitAgent.training_rollout` (apo_litagent.py) both run a
`while iteration < max_iterations` loop with `max_iterations = 10`: call the
model, append the assistant message, break when the response carries no tool
calls, otherwise execute each requested tool and append its result as a
`tool` message.

The model is an oracle `responses : Nat → ModelResponse` giving the message
returned by the k-th `chat.completions.create` call of the run; quantifying
over all oracles quantifies over every sequence of model responses.  Tool
execution (`_execute_tool`) is parameterized by the two tool handlers, each
a function of the raw arguments string. -/

structure ModelResponse where
  content : String
  toolCalls : List AToolCall
deriving DecidableEq, Repr

/-- `_execute_tool` of apo_agent.py: dispatch on the tool name, with an
error string for unknown tools. -/
def executeTool (ragHandler arxivHandler : String → String)
    (toolName arguments : String) : String :=
  if toolName = "rag_query" then ragHandler arguments
  else if toolName = "arxiv_search" then arxivHandler arguments
  else "ERROR: Unknown tool '" ++ toolName ++ "'"

/-- The assistant message appended after each model call (role, content,
`tool_calls` or `None`). -/
def assistantMsgOf (resp : ModelResponse) : AMsg :=
  ⟨"assistant", resp.content,
    (if resp.toolCalls.isEmpty then none else some resp.toolCalls), "", ""⟩

/-- The `tool` message appended for one executed tool call. -/
def toolMsgOf (ragHandler arxivHandler : String → String) (tc : AToolCall) : AMsg :=
  ⟨"tool", executeTool ragHandler arxivHandler tc.name tc.arguments, none, tc.id, tc.name⟩

/-- The common `while iteration < max_iterations` loop.  `fuel` is the
number of remaining iterations (initially 10), `k` the number of model
calls already issued.  Returns the transcript and the total number of model
calls the loop issued. -/
def rolloutLoop (responses : Nat → ModelResponse) (ragHandler arxivHandler : String → String) :
    Nat → Nat → List AMsg → List AMsg × Nat
  | 0, k, messages => (messages, k)
  | fuel + 1, k, messages =>
    let resp := responses k
    let messages := messages ++ [assistantMsgOf resp]
    if resp.toolCalls.isEmpty then (messages, k + 1)
    else
      rolloutLoop responses ragHandler arxivHandler fuel (k + 1)
        (messages ++ resp.toolCalls.map (toolMsgOf ragHandler arxivHandler))

/-- The initial conversation of both rollouts: system prompt, then the user
query. -/
def initMessages (systemPrompt query : String) : List AMsg :=
  [⟨"system", systemPrompt, none, "", ""⟩, ⟨"user", query, none, "", ""⟩]

/-- Python `messages and messages[-1].get('role') == 'tool'`. -/
def lastRoleIsTool (messages : List AMsg) : Bool :=
  match messages.getLast? with
  | some m => m.role == "tool"
  | none => false

/-- The transcript produced by the loop of `rag_agent_rollout`. -/
def loopMessages (responses : Nat → ModelResponse) (ragHandler arxivHandler : String → String)
    (systemPrompt query : String) : List AMsg :=
  (rolloutLoop responses ragHandler arxivHandler 10 0 (initMessages systemPrompt query)).1

/-- The number of model calls the loop of `rag_agent_rollout` issues. -/
def loopCalls (responses : Nat → ModelResponse) (ragHandler arxivHandler : String → String)
    (systemPrompt query : String) : Nat :=
  (rolloutLoop responses ragHandler arxivHandler 10 0 (initMessages systemPrompt query)).2

/-- `rag_agent_rollout` after the loop: extract the final response; when the
last message is a tool result, issue one extra model call (the source calls
`create` without tools) and append its content as a final assistant
message.  Returns the transcript, the final response, and the total number
of model calls issued. -/
def ragAgentRollout (responses : Nat → ModelResponse) (ragHandler arxivHandler : String → String)
    (systemPrompt query : String) : List AMsg × String × Nat :=
  let messages := loopMessages responses ragHandler arxivHandler systemPrompt query
  let calls := loopCalls responses ragHandler arxivHandler systemPrompt query
  let finalResponse := match messages.getLast? with
    | some m => m.content
    | none => ""
  if lastRoleIsTool messages then
    let fr := (responses calls).content
    (messages ++ [⟨"assistant", fr, none, "", ""⟩], fr, calls + 1)
  else
    (messages, finalResponse, calls)

/-- The loop of `RAGLitAgent.training_rollout`.  The oracle returns `none`
when the model call (or the tool execution of that round, both inside the
same `try`) raises: the rollout then returns reward `0.0` immediately.
Besides the transcript the loop accumulates `used_tools` (first-occurrence
deduplicated names of every requested tool call) and `tool_sequence` (every
`rag_query`/`arxiv_search` call in order). -/
def trainingLoop (responses : Nat → Option ModelResponse)
    (ragHandler arxivHandler : String → String) :
    Nat → Nat → List AMsg → List String → List String →
      Option (List AMsg × List String × List String) × Nat
  | 0, k, messages, usedTools, toolSequence => (some (messages, usedTools, toolSequence), k)
  | fuel + 1, k, messages, usedTools, toolSequence =>
    match responses k with
    | none => (none, k + 1)
    | some resp =>
      let messages := messages ++ [assistantMsgOf resp]
      let usedTools := resp.toolCalls.foldl
        (fun acc tc => if acc.contains tc.name then acc else acc ++ [tc.name]) usedTools
      let toolSequence := toolSequence ++
        (resp.toolCalls.filter
          (fun tc => tc.name == "rag_query" || tc.name == "arxiv_search")).map
          (fun tc => tc.name)
      if resp.toolCalls.isEmpty then (some (messages, usedTools, toolSequence), k + 1)
      else
        trainingLoop responses ragHandler arxivHandler fuel (k + 1)
          (messages ++ resp.toolCalls.map (toolMsgOf ragHandler arxivHandler))
          usedTools toolSequence

/-- `RAGLitAgent.training_rollout` after resolving the prompt: run the
loop, force a final answer with one extra model call when the transcript
ends in a tool message (on failure of that call the previous content
stands), then score with `_calculate_reward`.  Returns the reward and the
total number of model calls issued. -/
def trainingRollout (responses : Nat → Option ModelResponse)
    (ragHandler arxivHandler : String → String)
    (systemPrompt query : String) (task : Task) : ℚ × Nat :=
  match trainingLoop responses ragHandler arxivHandler 10 0
      (initMessages systemPrompt query) [] [] with
  | (none, calls) => (0, calls)
  | (some (messages, usedTools, toolSequence), calls) =>
    let finalResponse := match messages.getLast? with
      | some m => m.content
      | none => ""
    if lastRoleIsTool messages then
      match responses calls with
      | some resp =>
        (calculateReward query resp.content usedTools toolSequence messages task, calls + 1)
      | none =>
        (calculateReward query finalResponse usedTools toolSequence messages task, calls + 1)
    else
      (calculateReward query finalResponse usedTools toolSequence messages task, calls)

/-! ## The tool layer (`tools.py`)

`rag_query` is a function of the Qdrant search result list; `arxiv_search`
is a function of the outcome of the HTTP fetch and XML parse, modelled by
`ArxivFetchResult`: a successful parse yields the entry list, and each
exception class caught by the source is one error constructor carrying
Python's `str(exc)`. -/

/-- The `metadata` payload dict of a stored point (`title`, `source`). -/
structure MatchMeta where
  title : Option String
  source : Option String
deriving DecidableEq, Repr

/-- The payload dict of a Qdrant match (`text`, `metadata`). -/
structure MatchPayload where
  text : Option String
  metadata : Option MatchMeta
deriving DecidableEq, Repr

/-- One Qdrant search match: `match.payload` may be `None`. -/
structure MatchPoint where
  payload : Option MatchPayload
deriving DecidableEq, Repr

/-- The per-match formatting of `rag_query`. -/
def formatMatch (m : MatchPoint) : String :=
  let metadata : MatchMeta := match m.payload with
    | some p => p.metadata.getD ⟨none, none⟩
    | none => ⟨none, none⟩
  let title := metadata.title.getD "Untitled"
  let source := metadata.source.getD "Unknown"
  let text := match m.payload with
    | some p => p.text.getD ""
    | none => ""
  "[DB: " ++ title ++ "] (" ++ source ++ ")\n" ++ text

/-- `rag_query` as a function of the search results: the `RAG_EMPTY`
sentinel for an empty result list, otherwise the formatted matches. -/
def ragQuery (results : List MatchPoint) : String :=
  if results.isEmpty then
    "RAG_EMPTY: No matching documents found in the knowledge base."
  else
    String.intercalate "\n\n" (results.map formatMatch)

/-- One Atom entry as the source reads it: each field is `None` when the
element is missing or has no text. -/
structure ArxivEntry where
  title : Option String
  summary : Option String
  ident : Option String
deriving DecidableEq, Repr

/-- The outcome of `requests.get` + `ET.fromstring` inside `arxiv_search`:
a parsed entry list, or one of the three caught exception classes
(`requests.RequestException`, `ET.ParseError`, any other `Exception`). -/
inductive ArxivFetchResult where
  | ok (entries : List ArxivEntry)
  | requestError (msg : String)
  | parseError (msg : String)
  | otherError (msg : String)
deriving DecidableEq, Repr

/-- Python `identifier.split("/")[-1]`: the text after the last slash. -/
def lastSlashSegment (s : String) : String :=
  String.mk (s.data.foldl (fun acc c => if c == '/' then [] else acc ++ [c]) [])

/-- Python `summary[:500] + "..." if len(summary) > 500 else summary`. -/
def truncateSummary (s : String) : String :=
  if s.data.length > 500 then String.mk (s.data.take 500) ++ "..." else s

/-- The per-entry formatting of `arxiv_search`. -/
def formatEntry (e : ArxivEntry) : String :=
  let title := e.title.getD "Untitled"
  let summary := e.summary.getD "No summary available"
  let arxivId := match e.ident with
    | some s => lastSlashSegment s
    | none => "unknown"
  let link := "https://arxiv.org/abs/" ++ arxivId
  "[arXiv: " ++ title ++ "]\n" ++ "ID: " ++ arxivId ++ "\n" ++
    "Summary: " ++ truncateSummary summary ++ "\n" ++ "Link: " ++ link

/-- `arxiv_search` as a function of the fetch outcome.  The effective limit
is `min(max_results, settings.arxiv_search_max_results)`; the empty check
is on the full entry list, before truncation, exactly as in the source. -/
def arxivSearch (query : String) (maxResults settingsMaxResults : Nat)
    (fetch : ArxivFetchResult) : String :=
  let effectiveMaxResults := Nat.min maxResults settingsMaxResults
  match fetch with
  | .ok entries =>
    if entries.isEmpty then
      "ARXIV_EMPTY: No papers found for query '" ++ query ++ "' on arXiv."
    else
      String.intercalate "\n\n---\n\n" ((entries.take effectiveMaxResults).map formatEntry)
  | .requestError msg => "ARXIV_ERROR: Failed to search arXiv API: " ++ msg
  | .parseError msg => "ARXIV_ERROR: Failed to parse arXiv API response: " ++ msg
  | .otherError msg => "ARXIV_ERROR: Unexpected error during arXiv search: " ++ msg

/-! ## The Qdrant collection helper (`ingestion/store.py`)

The client state is the list of collections, each a name together with its
vector-parameter size (`none` models a collection whose `vectors` config is
absent, for which the source falls back to `384`).  The embedding probe
`_get_embedding_dimension()` is deterministic for fixed settings and is
modelled by the parameter `probeDim`. -/

structure QdrantState where
  items : List (String × Option Nat)
deriving DecidableEq, Repr

/-- `[collection.name for collection in client.get_collections().collections]`. -/
def collectionNames (st : QdrantState) : List String :=
  st.items.map Prod.fst

/-- The dimension `ensure_collection` reads for an existing collection:
`info.config.params.vectors.size if ... else 384`, or `none` when no
collection of that name exists. -/
def resolvedSize (st : QdrantState) (name : String) : Option Nat :=
  (st.items.find? (fun p => p.1 == name)).map (fun p => p.2.getD 384)

/-- The `ValueError` message raised on a dimension mismatch. -/
def mismatchMessage (name : String) (currentSize expectedSize : Nat) : String :=
  "Collection '" ++ name ++ "' has dimension " ++ toString currentSize ++
    ", but current embedding model requires " ++ toString expectedSize ++
    ". Please delete the collection or use a different collection name."

/-- `ensure_collection`: validate an existing collection's size against the
probed dimension (raising on mismatch), or create the collection with the
probed dimension. -/
def ensureCollection (collName : String) (probeDim : Nat) (st : QdrantState) :
    Except String QdrantState :=
  if (collectionNames st).contains collName then
    let currentSize := (resolvedSize st collName).getD 384
    if currentSize ≠ probeDim then
      Except.error (mismatchMessage collName currentSize probeDim)
    else
      Except.ok st
  else
    Except.ok ⟨st.items ++ [(collName, some probeDim)]⟩

/-! ## The `POST /query` route validation (`routes.py`)

Messages coming back from the LangChain agent are either LangChain message
objects (attribute access) or dicts; `RMsg` carries the fields the route
reads, with `isDictMsg` distinguishing the two shapes where their handling
differs (the dict branch of `_extract_tools_from_messages` appends a
type-`tool` message's name only when it is truthy, the object branch
whenever the attribute exists).  `content` may be absent, a string, or a
list of parts, each part contributing its `"text"` field when it is a dict
that has one. -/

inductive PyContent where
  | absent
  | str (s : String)
  | parts (ps : List (Option String))
deriving DecidableEq, Repr

structure RMsg where
  isDictMsg : Bool
  toolCalls : Option (List (Option String))
  typ : Option String
  name : Option String
  content : PyContent
deriving DecidableEq, Repr

/-- The tool names `_extract_tools_from_messages` collects from one
message: the extractable names of its `tool_calls`, its `name` when it is a
type-`tool` message, and the content-based fallback detection. -/
def extractFromMsg (m : RMsg) : List String :=
  let fromToolCalls := match m.toolCalls with
    | some tcs => tcs.filterMap id
    | none => []
  let fromToolType :=
    if m.typ = some "tool" then
      match m.name with
      | some n => if m.isDictMsg ∧ n = "" then [] else [n]
      | none => []
    else []
  let fromContent := match m.content with
    | PyContent.str s =>
      if hasNonWs s then
        (if strContains s "rag_query" then ["rag_query"] else []) ++
        (if strContains s "arxiv_search" || strContains s "ARXIV" ||
            strContains (pyLower s) "arxiv.org" then ["arxiv_search"] else [])
      else []
    | _ => []
  fromToolCalls ++ fromToolType ++ fromContent

/-- First-occurrence deduplication, modelling Python `list(set(...))` up to
order (the route reads the result only through membership and emptiness,
which do not depend on the order the set iterates in). -/
def dedupStr : List String → List String
  | [] => []
  | s :: t => if (dedupStr t).contains s then dedupStr t else s :: dedupStr t

/-- `_extract_tools_from_messages`. -/
def extractToolsFromMessages (messages : List RMsg) : List String :=
  dedupStr (messages.foldr (fun m acc => extractFromMsg m ++ acc) [])

/-- `_rag_empty_in_messages`: the `RAG_EMPTY` marker occurs in some
message's string content (truthy, per the source's `if content and ...`;
`RAG_EMPTY` cannot occur in an empty string, so truthiness is absorbed) or
in some text part of a list content.  The source reads content with
`getattr(message, "content", None)` only, so a dict-shaped message never
contributes here. -/
def ragEmptyInMessages (messages : List RMsg) : Bool :=
  messages.any (fun m =>
    if m.isDictMsg then false
    else
      match m.content with
      | PyContent.str s => strContains s "RAG_EMPTY"
      | PyContent.parts ps =>
        ps.any (fun p => match p with
          | some t => strContains t "RAG_EMPTY"
          | none => false)
      | PyContent.absent => false)

/-- Python `not hasattr(message, "tool_calls") or not message.tool_calls`
as the route's answer extraction reads it. -/
def noToolCallsOn (m : RMsg) : Bool :=
  match m.toolCalls with
  | none => true
  | some tcs => tcs.isEmpty

/-- `_content_from_messages`: walking the messages in reverse, the first
string content that is non-blank and belongs to an `ai`-typed or
tool-call-free message, or the first non-empty joined text of a list
content.  The source reads content with `getattr(message, "content", None)`
only, so a dict-shaped message never contributes here. -/
def contentFromMessages (messages : List RMsg) : String :=
  go messages.reverse
where
  go : List RMsg → String
  | [] => ""
  | m :: rest =>
    if m.isDictMsg then go rest
    else
      match m.content with
      | PyContent.str s =>
        if hasNonWs s ∧ (m.typ = some "ai" ∨ noToolCallsOn m = true) then s
        else go rest
      | PyContent.parts ps =>
        let joined := String.intercalate " "
          ((ps.map (fun p => p.getD "")).filter (fun t => t ≠ ""))
        if joined ≠ "" then joined else go rest
      | PyContent.absent => go rest

/-- The agent's return value as the route reads it: a dict with a
`messages` list, or anything else (read through its `content`). -/
inductive AgentResponse where
  | withMessages (messages : List RMsg)
  | direct (content : String)
deriving DecidableEq, Repr

/-- What the route does after the agent call: an HTTP error status with its
detail, or a success answer. -/
inductive RouteOutcome where
  | httpError (status : Nat) (detail : String)
  | ok (answer : String)
deriving DecidableEq, Repr

/-- The 400 detail for a transcript that used no tools. -/
def noToolsDetail : String :=
  "Agent must use tools (rag_query or arxiv_search) to answer queries. " ++
    "Direct LLM responses without tools are not allowed."

/-- The 400 detail for an empty RAG result not followed by `arxiv_search`. -/
def ragEmptyDetail : String :=
  "rag_query returned no results (RAG_EMPTY). The agent must call arxiv_search next. " ++
    "Please retry; direct answers after empty RAG are not allowed."

/-- The validation-and-answer-extraction tail of the `POST /query` handler,
after `agent.invoke` returned without raising. -/
def queryRoute (resp : AgentResponse) : RouteOutcome :=
  match resp with
  | .withMessages messages =>
    let toolsUsed := extractToolsFromMessages messages
    if toolsUsed.isEmpty then
      .httpError 400 noToolsDetail
    else
      let ragEmpty := ragEmptyInMessages messages
      if ragEmpty && toolsUsed.contains "rag_query" && !(toolsUsed.contains "arxiv_search") then
        .httpError 400 ragEmptyDetail
      else
        .ok (contentFromMessages messages)
  | .direct _ => .httpError 400 noToolsDetail

/-! ## The APO training loop of `train_apo.py`

The optimization loop of `main` keeps a `best_template` and `best_score`;
on an improving iteration it re-assigns `best_template = best_template`.
`evalScore` is the oracle for `evaluate_prompt_performance(...)['average']`
as a function of the evaluated template and the iteration number. -/

def apoIteration (evalScore : String → Nat → ℚ) (acc : String × ℚ) (i : Nat) : String × ℚ :=
  let currentScore := evalScore acc.1 (i + 1)
  if currentScore > acc.2 then (acc.1, currentScore) else acc

/-- The `for iteration in range(1, config.num_iterations + 1)` loop of
`train_apo.main`, returning `(optimized_template, best_score)`. -/
def apoOptimize (evalScore : String → Nat → ℚ) (numIterations : Nat)
    (baselineTemplate : String) (baselineScore : ℚ) : String × ℚ :=
  (List.range numIterations).foldl (apoIteration evalScore) (baselineTemplate, baselineScore)

/-! ## Helper lemmas -/

lemma clampQ_nonneg (x : ℚ) : 0 ≤ clampQ x := by
  unfold clampQ qmin qmax
  split_ifs <;> linarith

lemma clampQ_le_one (x : ℚ) : clampQ x ≤ 1 := by
  unfold clampQ qmin qmax
  split_ifs <;> linarith

lemma apoIteration_fst (evalScore : String → Nat → ℚ) (acc : String × ℚ) (i : Nat) :
    (apoIteration evalScore acc i).1 = acc.1 := by
  unfold apoIteration
  dsimp only
  split <;> rfl

lemma foldl_apoIteration_fst (evalScore : String → Nat → ℚ) :
    ∀ (l : List Nat) (acc : String × ℚ),
      (l.foldl (apoIteration evalScore) acc).1 = acc.1 := by
  intro l
  induction l with
  | nil => intro acc; rfl
  | cons i t ih =>
    intro acc
    simp only [List.foldl_cons, ih, apoIteration_fst]

/-! ## Claim theorems -/

/-- C9.  The APO training loop never mutates the prompt: for every
iteration count, every baseline template and score, and every sequence of
evaluation scores, the optimized template returned by the non-exception
path of `train_apo.main`'s loop is the baseline template, even when an
iteration's score exceeds the recorded best score (the improving branch
re-assigns `best_template = best_template`). -/
theorem apoOptimize_never_mutates_template (evalScore : String → Nat → ℚ)
    (numIterations : Nat) (baselineTemplate : String) (baselineScore : ℚ) :
    (apoOptimize evalScore numIterations baselineTemplate baselineScore).1 =
      baselineTemplate := by
  unfold apoOptimize
  exact foldl_apoIteration_fst evalScore (List.range numIterations) _

/-- C4.  Both graders return a score within `[0.0, 1.0]` for every input:
every return path of `_calculate_reward` and `rag_response_grader` is
either the constant `0` or a value clamped by `min(max(score, 0.0), 1.0)`,
even though the additive rules can push the unclamped running total outside
that range. -/
theorem grader_scores_bounded (query response : String)
    (usedTools toolSequence : List String) (messages : List AMsg) (task : Task)
    (rr : RolloutResult) :
    (0 ≤ calculateReward query response usedTools toolSequence messages task ∧
      calculateReward query response usedTools toolSequence messages task ≤ 1) ∧
    (0 ≤ ragResponseGrader rr ∧ ragResponseGrader rr ≤ 1) := by
  constructor
  · unfold calculateReward
    by_cases hr : response = ""
    · rw [if_pos hr]
      norm_num
    · rw [if_neg hr]
      dsimp only
      split
      · exact ⟨clampQ_nonneg _, clampQ_le_one _⟩
      · exact ⟨clampQ_nonneg _, clampQ_le_one _⟩
  · unfold ragResponseGrader
    by_cases hr : rr.response = ""
    · rw [if_pos hr]
      norm_num
    · rw [if_neg hr]
      exact ⟨clampQ_nonneg _, clampQ_le_one _⟩

/-- C3.  For every query matching the gibberish heuristic, the reward is
exactly the short-circuiting gibberish branch (clamped), independent of the
tool sequence, the transcript and the task — every other scoring rule is
skipped — and the score reaches `0.5` only when neither `rag_query` nor
`arxiv_search` was called. -/
theorem gibberish_branch_short_circuits (query response : String)
    (usedTools toolSequence : List String) (messages : List AMsg) (task : Task)
    (h : isGibberish query = true) :
    calculateReward query response usedTools toolSequence messages task =
      (if response = "" then 0
       else clampQ (gibberishBranchScore (pyLower response)
         (usedTools.contains "rag_query") (usedTools.contains "arxiv_search"))) ∧
    ((0.5 : ℚ) ≤ calculateReward query response usedTools toolSequence messages task →
      usedTools.contains "rag_query" = false ∧
        usedTools.contains "arxiv_search" = false) := by
  have hval : calculateReward query response usedTools toolSequence messages task =
      (if response = "" then 0
       else clampQ (gibberishBranchScore (pyLower response)
         (usedTools.contains "rag_query") (usedTools.contains "arxiv_search"))) := by
    unfold calculateReward
    by_cases hr : response = ""
    · rw [if_pos hr, if_pos hr]
    · rw [if_neg hr, if_neg hr]
      dsimp only
      rw [h]
      simp only [Bool.true_or, if_pos]
  refine ⟨hval, ?_⟩
  intro hge
  rw [hval] at hge
  by_cases hr : response = ""
  · rw [if_pos hr] at hge
    norm_num at hge
  · rw [if_neg hr] at hge
    cases hrag : usedTools.contains "rag_query" with
    | false =>
      cases harx : usedTools.contains "arxiv_search" with
      | false => exact ⟨rfl, rfl⟩
      | true =>
        exfalso
        rw [hrag, harx] at hge
        unfold gibberishBranchScore clampQ qmin qmax at hge
        norm_num at hge
    | true =>
      exfalso
      rw [hrag] at hge
      unfold gibberishBranchScore clampQ qmin qmax at hge
      norm_num at hge

/-- Witness for C3 at a concrete input: the two-character query `"ab"`
matches the gibberish heuristic, a tool was called, and the reward
evaluates to `0`, below `0.5`. -/
theorem gibberish_branch_short_circuits_witness :
    isGibberish "ab" = true ∧
    (calculateReward "ab" "hello" ["rag_query"] ["rag_query"] [] ⟨false, false, none, none⟩ =
        (if ("hello" : String) = "" then 0
         else clampQ (gibberishBranchScore (pyLower "hello")
           ((["rag_query"] : List String).contains "rag_query")
           ((["rag_query"] : List String).contains "arxiv_search"))) ∧
      ((0.5 : ℚ) ≤ calculateReward "ab" "hello" ["rag_query"] ["rag_query"] []
          ⟨false, false, none, none⟩ →
        (["rag_query"] : List String).contains "rag_query" = false ∧
          (["rag_query"] : List String).contains "arxiv_search" = false)) :=
  ⟨by decide, gibberish_branch_short_circuits "ab" "hello" ["rag_query"] ["rag_query"] []
    ⟨false, false, none, none⟩ (by decide)⟩

lemma listIsPrefix_self_append (p r : List Char) : listIsPrefix p (p ++ r) = true := by
  induction p with
  | nil => rfl
  | cons a as ih => simp [listIsPrefix, ih]

/-- C6.  Each tool signals empty and failure conditions by sentinel strings
rather than exceptions.  `rag_query` returns the `RAG_EMPTY`-prefixed
string on an empty search result; `arxiv_search` returns an
`ARXIV_EMPTY`-prefixed string when the feed parses to no entries, and each
caught exception class (transport, parse, other) produces an
`ARXIV_ERROR`-prefixed string; both are total functions into `String`. -/
theorem tool_sentinel_strings (query : String) (maxResults settingsMaxResults : Nat)
    (msg : String) :
    strStartsWith (ragQuery []) "RAG_EMPTY" = true ∧
    strStartsWith (arxivSearch query maxResults settingsMaxResults (.ok []))
      "ARXIV_EMPTY" = true ∧
    strStartsWith (arxivSearch query maxResults settingsMaxResults (.requestError msg))
      "ARXIV_ERROR" = true ∧
    strStartsWith (arxivSearch query maxResults settingsMaxResults (.parseError msg))
      "ARXIV_ERROR" = true ∧
    strStartsWith (arxivSearch query maxResults settingsMaxResults (.otherError msg))
      "ARXIV_ERROR" = true := by
  refine ⟨by decide, ?_, ?_, ?_, ?_⟩
  · show strStartsWith ("ARXIV_EMPTY: No papers found for query '" ++ query ++ "' on arXiv.")
      "ARXIV_EMPTY" = true
    have h : ("ARXIV_EMPTY: No papers found for query '" : String) =
        "ARXIV_EMPTY" ++ ": No papers found for query '" := by decide
    rw [h]
    unfold strStartsWith
    simp only [String.data_append, List.append_assoc]
    exact listIsPrefix_self_append _ _
  · show strStartsWith ("ARXIV_ERROR: Failed to search arXiv API: " ++ msg)
      "ARXIV_ERROR" = true
    have h : ("ARXIV_ERROR: Failed to search arXiv API: " : String) =
        "ARXIV_ERROR" ++ ": Failed to search arXiv API: " := by decide
    rw [h]
    unfold strStartsWith
    simp only [String.data_append, List.append_assoc]
    exact listIsPrefix_self_append _ _
  · show strStartsWith ("ARXIV_ERROR: Failed to parse arXiv API response: " ++ msg)
      "ARXIV_ERROR" = true
    have h : ("ARXIV_ERROR: Failed to parse arXiv API response: " : String) =
        "ARXIV_ERROR" ++ ": Failed to parse arXiv API response: " := by decide
    rw [h]
    unfold strStartsWith
    simp only [String.data_append, List.append_assoc]
    exact listIsPrefix_self_append _ _
  · show strStartsWith ("ARXIV_ERROR: Unexpected error during arXiv search: " ++ msg)
      "ARXIV_ERROR" = true
    have h : ("ARXIV_ERROR: Unexpected error during arXiv search: " : String) =
        "ARXIV_ERROR" ++ ": Unexpected error during arXiv search: " := by decide
    rw [h]
    unfold strStartsWith
    simp only [String.data_append, List.append_assoc]
    exact listIsPrefix_self_append _ _

lemma contains_map_fst_eq_isSome (l : List (String × Option Nat)) (n : String) :
    (l.map Prod.fst).contains n = (l.find? (fun p => p.1 == n)).isSome := by
  induction l with
  | nil => rfl
  | cons a t ih =>
    rw [List.map_cons, List.contains_cons]
    cases hb : (a.1 == n) with
    | true =>
      have hn : (n == a.1) = true := beq_iff_eq.mpr (beq_iff_eq.mp hb).symm
      simp only [List.find?_cons, hb, hn, Bool.true_or, Option.isSome_some]
    | false =>
      have hn : (n == a.1) = false := by
        have hne : ¬a.1 = n := by simpa using hb
        exact beq_eq_false_iff_ne.mpr (Ne.symm hne)
      rw [hn, Bool.false_or]
      simp only [List.find?_cons, hb]
      exact ih

lemma find?_append_of_none {α : Type} (p : α → Bool) (l₁ l₂ : List α)
    (h : l₁.find? p = none) : (l₁ ++ l₂).find? p = l₂.find? p := by
  induction l₁ with
  | nil => rfl
  | cons a t ih =>
    by_cases ha : p a = true
    · rw [List.find?] at h
      rw [ha] at h
      simp at h
    · have ha' : p a = false := by
        cases hpa : p a
        · rfl
        · exact absurd hpa ha
      rw [List.find?, ha'] at h
      rw [List.cons_append, List.find?, ha']
      exact ih h

/-- C5.  `ensure_collection` validates and is idempotent: when the
collection exists with the probed embedding dimension the call returns with
the state unchanged (no create or alter); when the existing collection's
resolved size differs from the probed dimension it raises the mismatch
`ValueError` (no retry, no state change); and a second call with the same
settings after any successful call returns the same state unchanged. -/
theorem ensureCollection_idempotent_and_validates (collName : String) (probeDim : Nat)
    (st : QdrantState) :
    (resolvedSize st collName = some probeDim →
      ensureCollection collName probeDim st = Except.ok st) ∧
    (∀ s, resolvedSize st collName = some s → s ≠ probeDim →
      ensureCollection collName probeDim st =
        Except.error (mismatchMessage collName s probeDim)) ∧
    (∀ st', ensureCollection collName probeDim st = Except.ok st' →
      ensureCollection collName probeDim st' = Except.ok st') := by
  have hsome : ∀ s, resolvedSize st collName = some s →
      (collectionNames st).contains collName = true := by
    intro s h
    rw [collectionNames, contains_map_fst_eq_isSome]
    unfold resolvedSize at h
    cases hf : st.items.find? (fun p => p.1 == collName) with
    | none => rw [hf] at h; simp at h
    | some p => simp
  refine ⟨?_, ?_, ?_⟩
  · intro h
    unfold ensureCollection
    rw [hsome probeDim h]
    simp [h]
  · intro s h hne
    unfold ensureCollection
    rw [hsome s h]
    simp [h, hne]
  · intro st' h
    by_cases hcont : (collectionNames st).contains collName = true
    · unfold ensureCollection at h
      rw [hcont] at h
      simp only [if_true] at h
      by_cases hm : (resolvedSize st collName).getD 384 ≠ probeDim
      · rw [if_pos hm] at h
        simp at h
      · rw [if_neg hm] at h
        have hst : st = st' := by
          injection h
        subst hst
        unfold ensureCollection
        rw [hcont]
        simp only [if_true]
        rw [if_neg hm]
    · have hcf : (collectionNames st).contains collName = false := by
        cases hcc : (collectionNames st).contains collName
        · rfl
        · exact absurd hcc hcont
      unfold ensureCollection at h
      rw [hcf] at h
      simp only [Bool.false_eq_true, if_false] at h
      have hst : st' = ⟨st.items ++ [(collName, some probeDim)]⟩ := by
        injection h with h'
        exact h'.symm
      subst hst
      have hfind_none : st.items.find? (fun p => p.1 == collName) = none := by
        have := contains_map_fst_eq_isSome st.items collName
        rw [← collectionNames, hcf] at this
        cases hf : st.items.find? (fun p => p.1 == collName) with
        | none => rfl
        | some p => rw [hf] at this; simp at this
      have hres : resolvedSize ⟨st.items ++ [(collName, some probeDim)]⟩ collName =
          some probeDim := by
        unfold resolvedSize
        rw [find?_append_of_none _ _ _ hfind_none]
        simp [List.find?]
      have hcont' : (collectionNames ⟨st.items ++ [(collName, some probeDim)]⟩).contains
          collName = true := by
        rw [collectionNames, contains_map_fst_eq_isSome]
        rw [find?_append_of_none _ _ _ hfind_none]
        simp [List.find?]
      unfold ensureCollection
      rw [hcont']
      simp [hres]

/-- Witness for C5 at concrete states: an existing correctly-sized
collection is left unchanged, and a mismatched one raises. -/
theorem ensureCollection_idempotent_and_validates_witness :
    resolvedSize ⟨[("papers", some 384)]⟩ "papers" = some 384 ∧
    ensureCollection "papers" 384 ⟨[("papers", some 384)]⟩ =
      Except.ok ⟨[("papers", some 384)]⟩ ∧
    ensureCollection "papers" 512 ⟨[("papers", some 384)]⟩ =
      Except.error (mismatchMessage "papers" 384 512) :=
  ⟨by decide,
   (ensureCollection_idempotent_and_validates "papers" 384 ⟨[("papers", some 384)]⟩).1
     (by decide),
   (ensureCollection_idempotent_and_validates "papers" 512
     ⟨[("papers", some 384)]⟩).2.1 384 (by decide) (by decide)⟩

/-! ### Loop lemmas for C1 and C8 -/

/-- The absolute index of the first model response, at or after call index
`k` within the remaining `fuel` rounds, that carries no tool calls. -/
def firstStop (responses : Nat → ModelResponse) : Nat → Nat → Option Nat
  | 0, _ => none
  | fuel + 1, k =>
    if (responses k).toolCalls.isEmpty then some k
    else firstStop responses fuel (k + 1)

/-- The first of the 10 budgeted model responses with no tool calls. -/
def firstNoToolCall (responses : Nat → ModelResponse) : Option Nat :=
  firstStop responses 10 0

lemma rolloutLoop_calls_le (responses : Nat → ModelResponse)
    (ragHandler arxivHandler : String → String) :
    ∀ (fuel k : Nat) (messages : List AMsg),
      (rolloutLoop responses ragHandler arxivHandler fuel k messages).2 ≤ k + fuel := by
  intro fuel
  induction fuel with
  | zero => intro k messages; simp [rolloutLoop]
  | succ n ih =>
    intro k messages
    unfold rolloutLoop
    dsimp only
    split
    · omega
    · calc (rolloutLoop responses ragHandler arxivHandler n (k + 1) _).2 ≤ (k + 1) + n :=
            ih (k + 1) _
        _ = k + (n + 1) := by omega

lemma trainingLoop_calls_le (responses : Nat → Option ModelResponse)
    (ragHandler arxivHandler : String → String) :
    ∀ (fuel k : Nat) (messages : List AMsg) (usedTools toolSequence : List String),
      (trainingLoop responses ragHandler arxivHandler fuel k messages
        usedTools toolSequence).2 ≤ k + fuel := by
  intro fuel
  induction fuel with
  | zero => intro k messages u ts; simp [trainingLoop]
  | succ n ih =>
    intro k messages u ts
    unfold trainingLoop
    cases hr : responses k with
    | none => simp [hr]
    | some resp =>
      simp only [hr]
      split
      · omega
      · calc (trainingLoop responses ragHandler arxivHandler n (k + 1) _ _ _).2
              ≤ (k + 1) + n := ih (k + 1) _ _ _
          _ = k + (n + 1) := by omega

lemma rolloutLoop_calls_eq (responses : Nat → ModelResponse)
    (ragHandler arxivHandler : String → String) :
    ∀ (fuel k : Nat) (messages : List AMsg),
      (rolloutLoop responses ragHandler arxivHandler fuel k messages).2 =
        (firstStop responses fuel k).elim (k + fuel) (fun j => j + 1) := by
  intro fuel
  induction fuel with
  | zero => intro k messages; simp [rolloutLoop, firstStop]
  | succ n ih =>
    intro k messages
    unfold rolloutLoop firstStop
    dsimp only
    by_cases h : (responses k).toolCalls.isEmpty = true
    · rw [if_pos h, if_pos h]
      rfl
    · rw [if_neg h, if_neg h]
      rw [ih (k + 1) _]
      cases hfs : firstStop responses n (k + 1) with
      | none => simp [Option.elim]; omega
      | some j => simp [Option.elim]

lemma lastRoleIsTool_concat_assistant (messages : List AMsg) (resp : ModelResponse) :
    lastRoleIsTool (messages ++ [assistantMsgOf resp]) = false := by
  unfold lastRoleIsTool assistantMsgOf
  rw [List.getLast?_concat]
  rfl

lemma lastRoleIsTool_append_toolMsgs (ragHandler arxivHandler : String → String)
    (tcs : List AToolCall) (h : tcs ≠ []) (messages : List AMsg) :
    lastRoleIsTool (messages ++ tcs.map (toolMsgOf ragHandler arxivHandler)) = true := by
  induction tcs generalizing messages with
  | nil => exact absurd rfl h
  | cons a t ih =>
    cases t with
    | nil =>
      unfold lastRoleIsTool
      rw [List.map_cons, List.map_nil, List.getLast?_concat]
      rfl
    | cons b t' =>
      have : messages ++ (a :: b :: t').map (toolMsgOf ragHandler arxivHandler) =
          (messages ++ [toolMsgOf ragHandler arxivHandler a]) ++
            (b :: t').map (toolMsgOf ragHandler arxivHandler) := by
        simp
      rw [this]
      exact ih (by simp) _

lemma rolloutLoop_last (responses : Nat → ModelResponse)
    (ragHandler arxivHandler : String → String) :
    ∀ (fuel k : Nat) (messages : List AMsg), fuel ≠ 0 →
      lastRoleIsTool (rolloutLoop responses ragHandler arxivHandler fuel k messages).1 =
        (firstStop responses fuel k).isNone := by
  intro fuel
  induction fuel with
  | zero => intro k messages h; exact absurd rfl h
  | succ n ih =>
    intro k messages _
    unfold rolloutLoop firstStop
    dsimp only
    by_cases h : (responses k).toolCalls.isEmpty = true
    · rw [if_pos h, if_pos h]
      simp [lastRoleIsTool_concat_assistant]
    · rw [if_neg h, if_neg h]
      cases hn : n with
      | zero =>
        unfold rolloutLoop
        have htcs : (responses k).toolCalls ≠ [] := by
          intro he
          rw [he] at h
          exact h rfl
        simp only [firstStop, Option.isNone_none]
        exact lastRoleIsTool_append_toolMsgs ragHandler arxivHandler _ htcs _
      | succ m =>
        rw [← hn]
        exact ih (k + 1) _ (by omega)

/-- C1.  For every sequence of model responses (and of tool results,
through the tool handlers), the `while iteration < max_iterations` loops of
`rag_agent_rollout` and `RAGLitAgent.training_rollout` issue at most 10
model calls before returning whatever transcript has been built; the
training loop's bound also covers runs its `try/except` aborts.  Both loop
embeddings are total functions, so termination holds for every oracle. -/
theorem agent_loops_bounded (responses : Nat → ModelResponse)
    (tresponses : Nat → Option ModelResponse)
    (ragHandler arxivHandler : String → String) (systemPrompt query : String) :
    loopCalls responses ragHandler arxivHandler systemPrompt query ≤ 10 ∧
    (trainingLoop tresponses ragHandler arxivHandler 10 0
      (initMessages systemPrompt query) [] []).2 ≤ 10 :=
  ⟨rolloutLoop_calls_le responses ragHandler arxivHandler 10 0 _,
   trainingLoop_calls_le tresponses ragHandler arxivHandler 10 0 _ [] []⟩

/-- C8.  The loop of `rag_agent_rollout` ends with the first model response
that carries no tool calls (issuing exactly that many model calls, or all
10 when every budgeted response requests tools); the final transcript
message is a tool result exactly when the budget ran out with tool calls
still pending, and in exactly that case `rag_agent_rollout` issues one
additional model call whose content becomes the final natural-language
answer, appended as an assistant message.  This subsumes the spec's
statement: whenever the loop exits with the last message a tool result, one
forcing call is issued. -/
theorem loop_stops_and_forces_final_answer (responses : Nat → ModelResponse)
    (ragHandler arxivHandler : String → String) (systemPrompt query : String) :
    loopCalls responses ragHandler arxivHandler systemPrompt query =
      (firstNoToolCall responses).elim 10 (fun j => j + 1) ∧
    lastRoleIsTool (loopMessages responses ragHandler arxivHandler systemPrompt query) =
      (firstNoToolCall responses).isNone ∧
    (ragAgentRollout responses ragHandler arxivHandler systemPrompt query).2.2 =
      loopCalls responses ragHandler arxivHandler systemPrompt query +
        (if lastRoleIsTool (loopMessages responses ragHandler arxivHandler
            systemPrompt query) then 1 else 0) ∧
    (lastRoleIsTool (loopMessages responses ragHandler arxivHandler systemPrompt query) =
        true →
      (ragAgentRollout responses ragHandler arxivHandler systemPrompt query).2.1 =
          (responses (loopCalls responses ragHandler arxivHandler systemPrompt
            query)).content ∧
        (ragAgentRollout responses ragHandler arxivHandler systemPrompt query).1 =
          loopMessages responses ragHandler arxivHandler systemPrompt query ++
            [⟨"assistant", (responses (loopCalls responses ragHandler arxivHandler
              systemPrompt query)).content, none, "", ""⟩]) := by
  refine ⟨?_, ?_, ?_, ?_⟩
  · exact rolloutLoop_calls_eq responses ragHandler arxivHandler 10 0 _
  · exact rolloutLoop_last responses ragHandler arxivHandler 10 0 _ (by omega)
  · unfold ragAgentRollout
    dsimp only
    by_cases h : lastRoleIsTool (loopMessages responses ragHandler arxivHandler
        systemPrompt query) = true
    · rw [if_pos h, if_pos h]
    · rw [if_neg h, if_neg h]
      simp
  · intro h
    unfold ragAgentRollout
    dsimp only
    rw [if_pos h]
    exact ⟨rfl, rfl⟩

/-- C7.  When the transcript of the agent's response yields no extracted
tool usage — and likewise when the response carries no `messages` structure
at all — the `POST /query` route rejects the request with HTTP 400 and the
fixed detail text instead of returning an answer. -/
theorem query_route_rejects_toolless (resp : AgentResponse)
    (h : match resp with
      | AgentResponse.withMessages msgs => extractToolsFromMessages msgs = []
      | AgentResponse.direct _ => True) :
    queryRoute resp = RouteOutcome.httpError 400 noToolsDetail := by
  cases resp with
  | withMessages msgs =>
    have he : extractToolsFromMessages msgs = [] := h
    unfold queryRoute
    dsimp only
    rw [he]
    rfl
  | direct c => rfl

/-- Witness for C7: a transcript whose one message is a plain assistant
reply mentioning no tool is rejected with 400. -/
theorem query_route_rejects_toolless_witness :
    extractToolsFromMessages
      [⟨false, none, some "ai", none, PyContent.str "Hello there."⟩] = [] ∧
    queryRoute (AgentResponse.withMessages
        [⟨false, none, some "ai", none, PyContent.str "Hello there."⟩]) =
      RouteOutcome.httpError 400 noToolsDetail :=
  ⟨by decide, query_route_rejects_toolless
    (AgentResponse.withMessages
      [⟨false, none, some "ai", none, PyContent.str "Hello there."⟩])
    (by decide)⟩

/-- C10.  The implicit route rule: when the transcript contains the
`RAG_EMPTY` sentinel, `rag_query` is among the extracted tools and
`arxiv_search` is not, the `POST /query` route rejects the request with
HTTP 400 and the retry detail, requiring the agent to fall back to live
search before answering. -/
theorem query_route_enforces_live_search_after_empty_rag (messages : List RMsg)
    (h1 : ragEmptyInMessages messages = true)
    (h2 : (extractToolsFromMessages messages).contains "rag_query" = true)
    (h3 : (extractToolsFromMessages messages).contains "arxiv_search" = false) :
    queryRoute (AgentResponse.withMessages messages) =
      RouteOutcome.httpError 400 ragEmptyDetail := by
  have hne : (extractToolsFromMessages messages).isEmpty = false := by
    cases hl : extractToolsFromMessages messages with
    | nil => rw [hl] at h2; simp at h2
    | cons a t => rfl
  unfold queryRoute
  dsimp only
  rw [hne, h1, h2, h3]
  rfl

/-- Witness for C10: a transcript with a `rag_query` tool call, its
`RAG_EMPTY` tool result and a plain final answer is rejected with 400. -/
theorem query_route_enforces_live_search_after_empty_rag_witness :
    ragEmptyInMessages
        [⟨false, some [some "rag_query"], none, none, PyContent.absent⟩,
         ⟨false, none, some "tool", some "rag_query",
           PyContent.str "RAG_EMPTY: No matching documents found in the knowledge base."⟩,
         ⟨false, none, some "ai", none,
           PyContent.str "I could not find anything relevant."⟩] = true ∧
    queryRoute (AgentResponse.withMessages
        [⟨false, some [some "rag_query"], none, none, PyContent.absent⟩,
         ⟨false, none, some "tool", some "rag_query",
           PyContent.str "RAG_EMPTY: No matching documents found in the knowledge base."⟩,
         ⟨false, none, some "ai", none,
           PyContent.str "I could not find anything relevant."⟩]) =
      RouteOutcome.httpError 400 ragEmptyDetail :=
  ⟨by decide, query_route_enforces_live_search_after_empty_rag _
    (by decide) (by decide) (by decide)⟩

/-! ### C2: graders and empty tool results -/

/-- Every `tool`-role message of the transcript carries its tool's empty
sentinel: the hypothesis of the spec's property that both tools returned
their empty marker. -/
def allToolResultsEmptySentinel (messages : List AMsg) : Bool :=
  messages.all (fun m =>
    if m.role == "tool" then
      (if m.name == "rag_query" then strStartsWith m.content "RAG_EMPTY" else true) &&
      (if m.name == "arxiv_search" then strStartsWith m.content "ARXIV_EMPTY" else true)
    else true)

/-- Modelled from the spec: the score a transcript would get if "the final
score should reflect only format/length-based credit" — the
format-compliance rule plus the length-based completeness rule, clamped. -/
def formatLengthOnlyScore (response : String) : ℚ :=
  clampQ (formatCredit response + completenessCredit response)

/-- A final response for the counterexample transcript: long, citation-like
(`paper`, `arxiv`), free of error indicators and hedging phrases. -/
def emptySentinelResponse : String :=
  "Based on the search results, several papers discuss transformer models in depth, " ++
    "including the original attention paper and follow-up studies listed on arxiv."

/-- A finished transcript in which both tools were invoked and each
returned its empty sentinel. -/
def emptySentinelMessages : List AMsg :=
  [⟨"system", "You are a helpful research assistant.", none, "", ""⟩,
   ⟨"user", "What papers discuss transformer models?", none, "", ""⟩,
   ⟨"assistant", "", some [⟨"call_1", "function", "rag_query", "{}"⟩], "", ""⟩,
   ⟨"tool", "RAG_EMPTY: No matching documents found in the knowledge base.", none,
     "call_1", "rag_query"⟩,
   ⟨"assistant", "", some [⟨"call_2", "function", "arxiv_search", "{}"⟩], "", ""⟩,
   ⟨"tool", "ARXIV_EMPTY: No papers found for query 'transformer models' on arXiv.", none,
     "call_2", "arxiv_search"⟩,
   ⟨"assistant", emptySentinelResponse, none, "", ""⟩]

/-- Counterexample to C2 as stated: a non-gibberish query whose transcript
had both tools return their empty sentinels still scores `0.9` — the `0.3`
tool-usage credit and the `0.2` citation-quality credit are both awarded —
while the format/length-based credit alone is `0.4`. -/
theorem grader_empty_sentinels_counterexample :
    isGibberish "What papers discuss transformer models?" = false ∧
    allToolResultsEmptySentinel emptySentinelMessages = true ∧
    calculateReward "What papers discuss transformer models?" emptySentinelResponse
      ["rag_query", "arxiv_search"] ["rag_query", "arxiv_search"]
      emptySentinelMessages ⟨false, false, none, none⟩ = 0.9 ∧
    formatLengthOnlyScore emptySentinelResponse = 0.4 ∧
    ((0.9 : ℚ) ≠ 0.4) :=
  ⟨by decide, by decide, by with_unfolding_all decide, by with_unfolding_all decide,
   by norm_num⟩

/-- C2 amended.  The graders never read the tool results:
`_calculate_reward` ignores its `messages` argument entirely, and
`rag_response_grader` reads its messages only for the assistant tool-call
names.  Consequently, for a non-gibberish query whose invocations all
returned empty sentinels, the `0.3` tool-usage credit is still awarded
whenever a tool was invoked, and the remaining credit is determined by the
final response text and task alone. -/
theorem grader_scores_ignore_tool_results (query response : String)
    (usedTools toolSequence : List String) (messages messages' : List AMsg)
    (task : Task) (rr rr' : RolloutResult) :
    calculateReward query response usedTools toolSequence messages task =
      calculateReward query response usedTools toolSequence messages' task ∧
    (assistantToolNames rr.messages = assistantToolNames rr'.messages →
      rr.response = rr'.response → rr.task = rr'.task →
      ragResponseGrader rr = ragResponseGrader rr') ∧
    (isGibberish query = false → (task.isDict && task.isInvalid) = false →
      response ≠ "" →
      (usedTools.contains "rag_query" || usedTools.contains "arxiv_search") = true →
      calculateReward query response usedTools toolSequence messages task =
        clampQ (applyExpectedBonus task (pyLower response)
          ((0.3 : ℚ) + intelligentChoiceBonus task toolSequence.head? +
            keywordBonus (pyLower query) toolSequence.head? +
            formatCredit response + completenessCredit response +
            qualityCredit (pyLower response)))) := by
  refine ⟨rfl, ?_, ?_⟩
  · intro h1 h2 h3
    unfold ragResponseGrader
    rw [h1, h2, h3]
  · intro hg hf hr hu
    unfold calculateReward
    rw [if_neg hr]
    dsimp only
    rw [hg, hf, hu]
    rfl

/-- Witness for the amended C2 theorem: at a concrete non-gibberish input
with a tool invoked and all-empty tool results, the score decomposes with
the `0.3` tool-usage credit present and does not depend on the transcript. -/
theorem grader_scores_ignore_tool_results_witness :
    calculateReward "What papers discuss transformer models?" emptySentinelResponse
      ["rag_query", "arxiv_search"] ["rag_query", "arxiv_search"]
      emptySentinelMessages ⟨false, false, none, none⟩ =
    calculateReward "What papers discuss transformer models?" emptySentinelResponse
      ["rag_query", "arxiv_search"] ["rag_query", "arxiv_search"]
      [] ⟨false, false, none, none⟩ :=
  (grader_scores_ignore_tool_results "What papers discuss transformer models?"
    emptySentinelResponse ["rag_query", "arxiv_search"] ["rag_query", "arxiv_search"]
    emptySentinelMessages [] ⟨false, false, none, none⟩
    ⟨[], "x", ⟨false, false, none, none⟩⟩ ⟨[], "x", ⟨false, false, none, none⟩⟩).1

end RagArxiv
